import Mathlib

/-!
# Verification of the ftp-cli protocol engine

A shallow embedding of the FTP client's protocol engine
(`src/ftp_client.rs`, `src/commands.rs`, `src/error.rs`) and proofs about
it.  Strings read from or written to the network are modelled as lists of
characters (`Line`); the repository only ever manipulates ASCII data, so
Rust's byte indices coincide with character indices.  Rust machine
integers are modelled as `Nat`/`Int` with the overflow bounds made
explicit where they matter.  I/O is modelled by an oracle (`Orc`) that
supplies the result of each successive socket operation, and every
session operation returns its result together with the ordered trace of
externally visible actions (`Ev`).  A Rust panic (`unwrap` failure)
(process abort) is modelled by the dedicated `Outcome.panicked`
constructor, kept distinct from an error value returned to the caller.
-/

abbrev Line := List Char

/-- The error enumeration of `src/error.rs` (`FtpError`).  The payloads of
`IoError`/`EncodingError` (the wrapped causes) are irrelevant to control
flow and are dropped. -/
inductive FtpError where
  | invalidResponse (line : Line)
  | unexpectedReturnCode (code : Int) (text : Line)
  | ioError
  | encodingError
  | operationFailed (text : Line)
  deriving Repr, DecidableEq

/-- Modelled from the spec: the transfer-type selection ("binary for
get/put, text for list").  `FtpTransferType` is referenced by
`src/ftp_client.rs` but its declaration is missing from the sources under
`src/`. -/
inductive FtpTransferType where
  | Binary
  | Text
  deriving Repr, DecidableEq

/-- IPv4 socket address (`std::net::SocketAddrV4`): four octets and a
port.  Octets are `u8` (< 256) and the port is `u16` (< 65536); the
bounds appear as hypotheses where they matter. -/
structure SocketAddrV4 where
  o1 : Nat
  o2 : Nat
  o3 : Nat
  o4 : Nat
  port : Nat
  deriving Repr, DecidableEq

/-- The command enumeration of `src/commands.rs` (`FtpCommand`).  The
`TYPE` variant is modelled from the spec ("a type-selection command
issued before any data transfer"): it is used by `src/ftp_client.rs` but
its declaration and encoding are missing from the sources under `src/`. -/
inductive FtpCommand where
  | CWD (path : String)
  | DELE (path : String)
  | LIST (path : String)
  | MKD (path : String)
  | PASS (pass : String)
  | PASV
  | PORT (addr : SocketAddrV4)
  | PWD
  | QUIT
  | RETR (path : String)
  | RMD (path : String)
  | STOR (path : String)
  | USER (user : String)
  | TYPE (t : FtpTransferType)
  deriving Repr, DecidableEq

/-- Model of `to_ftp_port` of `src/ftp_client.rs`: `b1 * 256 + b2` in `u16`
arithmetic (reduced modulo 2^16; in the program both arguments come from
parsed `u8` values, so no wrap-around actually occurs). -/
def to_ftp_port (b1 b2 : Nat) : Nat :=
  (b1 * 256 + b2) % 65536

/-- Model of `FtpCommand::to_string` of `src/commands.rs`: verb, space, argument,
newline; the `PORT` arm renders the four octets and `port/256`,
`port%256` joined by commas.  The `TYPE` arm is modelled from the spec
(its source is missing from `src/`). -/
def FtpCommand.to_string : FtpCommand → String
  | .CWD path => "CWD " ++ path ++ "\n"
  | .DELE path => "DELE " ++ path ++ "\n"
  | .LIST path => "LIST " ++ path ++ "\n"
  | .MKD path => "MKD " ++ path ++ "\n"
  | .PASS pass => "PASS " ++ pass ++ "\n"
  | .PASV => "PASV\n"
  | .PORT a =>
      "PORT " ++ Nat.repr a.o1 ++ "," ++ Nat.repr a.o2 ++ "," ++
        Nat.repr a.o3 ++ "," ++ Nat.repr a.o4 ++ "," ++
        Nat.repr (a.port / 256) ++ "," ++ Nat.repr (a.port % 256) ++ "\n"
  | .PWD => "PWD\n"
  | .QUIT => "QUIT\n"
  | .RETR path => "RETR " ++ path ++ "\n"
  | .RMD path => "RMD " ++ path ++ "\n"
  | .STOR path => "STOR " ++ path ++ "\n"
  | .USER user => "USER " ++ user ++ "\n"
  | .TYPE .Binary => "TYPE I\n"
  | .TYPE .Text => "TYPE A\n"

/-- Rust `str::find(' ')`: index of the first space, if any. -/
def findSpace : Line → Option Nat
  | [] => none
  | c :: cs => if c = ' ' then some 0 else (findSpace cs).map (· + 1)

/-- One decimal digit's value, `none` for a non-digit. -/
def digitVal (c : Char) : Option Nat :=
  if '0' ≤ c ∧ c ≤ '9' then some (c.toNat - 48) else none

/-- Accumulating decimal evaluation of a digit run; fails on the first
non-digit. -/
def digitsAux : Line → Nat → Option Nat
  | [], acc => some acc
  | c :: cs, acc =>
      match digitVal c with
      | some d => digitsAux cs (acc * 10 + d)
      | none => none

/-- Value of a non-empty all-digit string; `none` if empty or any
character is not a decimal digit. -/
def digitsVal : Line → Option Nat
  | [] => none
  | cs => digitsAux cs 0

/-- Rust `str::parse::<i32>`: an optional sign followed by at least one
decimal digit, the value within the `i32` range; anything else
(including overflow) fails. -/
def parseI32 : Line → Option Int
  | [] => none
  | '+' :: cs => (digitsVal cs).bind fun n =>
      if n ≤ 2147483647 then some (Int.ofNat n) else none
  | '-' :: cs => (digitsVal cs).bind fun n =>
      if n ≤ 2147483648 then some (-(Int.ofNat n)) else none
  | cs => (digitsVal cs).bind fun n =>
      if n ≤ 2147483647 then some (Int.ofNat n) else none

/-- Rust `str::parse::<u8>`: an optional `+` sign followed by at least
one decimal digit, the value within the `u8` range. -/
def parseU8 : Line → Option Nat
  | [] => none
  | '+' :: cs => (digitsVal cs).bind fun n =>
      if n ≤ 255 then some n else none
  | cs => (digitsVal cs).bind fun n =>
      if n ≤ 255 then some n else none

/-- The whitespace test used by `str::trim` (restricted to the ASCII
whitespace that can actually occur on the control channel). -/
def isWsp (c : Char) : Bool :=
  c = ' ' || c = '\t' || c = '\n' || c = '\r'

/-- Rust `str::trim`: drop whitespace from both ends. -/
def trimLine (l : Line) : Line :=
  ((l.dropWhile isWsp).reverse.dropWhile isWsp).reverse

/-- The parsing core of `FtpClient::read_response`
(`src/ftp_client.rs`): after `read_line` has produced `line`, find the
first space (else `InvalidResponse`), parse the prefix as an `i32` (else
`InvalidResponse`), and return the code with the trimmed remainder. -/
def parse_response (line : Line) : Except FtpError (Int × Line) :=
  match findSpace line with
  | none => .error (.invalidResponse line)
  | some pos =>
      match parseI32 (line.take pos) with
      | none => .error (.invalidResponse line)
      | some code => .ok (code, trimLine (line.drop (pos + 1)))

/-- Model of `to_error` of `src/ftp_client.rs`: a 550 reply becomes
`OperationFailed`, any other reply becomes `UnexpectedReturnCode`, and an
error is passed through. -/
def to_error (result : Except FtpError (Int × Line)) : FtpError :=
  match result with
  | .ok (code, text) =>
      if code = 550 then .operationFailed text
      else .unexpectedReturnCode code text
  | .error err => err

deriving instance DecidableEq for Except

/-- Rust `str::rfind(c)`: index of the last occurrence of `c`, if any. -/
def rfindIdx (c : Char) : Line → Option Nat
  | [] => none
  | x :: xs =>
      match rfindIdx c xs with
      | some i => some (i + 1)
      | none => if x = c then some 0 else none

/-- Rust `str::split(',')`: the comma-separated pieces; an empty string
yields one empty piece, adjacent commas yield empty pieces. -/
def splitOnComma : Line → List Line
  | [] => [[]]
  | c :: cs =>
      if c = ',' then [] :: splitOnComma cs
      else
        match splitOnComma cs with
        | [] => [[c]]
        | h :: t => (c :: h) :: t

/-- The address-tuple extraction inside
`FtpClient::init_data_transfer_passive` (`src/ftp_client.rs`), applied to
the text of the 227 reply: `rfind('(')`, `rfind(')')`, slice between
them, split on commas, parse each piece as `u8`, build the address from
the first four numbers and `to_ftp_port` of the next two.  The source
performs every one of these steps with `unwrap()` or unchecked indexing,
so each failure aborts the process: that abort is modelled by `none`
(`some` is the value the successful source computes). -/
def pasvParseAddr (line : Line) : Option SocketAddrV4 :=
  match rfindIdx '(' line with
  | none => none
  | some sp =>
      match rfindIdx ')' line with
      | none => none
      | some ep =>
          if sp + 1 ≤ ep then
            match (splitOnComma ((line.take ep).drop (sp + 1))).mapM parseU8 with
            | none => none
            | some nums =>
                if 6 ≤ nums.length then
                  some ⟨nums.getD 0 0, nums.getD 1 0, nums.getD 2 0,
                        nums.getD 3 0,
                        to_ftp_port (nums.getD 4 0) (nums.getD 5 0)⟩
                else none
          else none

/-- The externally visible actions of the engine, in the order they are
performed: a command write on the control channel, a control-channel
reply read, an outward data connection, a listener bind, an accepted
incoming connection, local file creation/removal, and the streaming copy
on the data channel. -/
inductive Ev where
  | w (cmd : FtpCommand)
  | rd
  | conn (a : SocketAddrV4)
  | bindL (a : SocketAddrV4)
  | acc
  | fcreate (path : String)
  | fremove (path : String)
  | copyData
  deriving Repr, DecidableEq

/-- Result of an engine operation together with its trace of actions.
`panicked` models a Rust panic (`unwrap` failure / out-of-bounds
slicing): the process aborts, no value is returned to the caller. -/
inductive Outcome (α : Type) where
  | panicked (trace : List Ev)
  | done (result : Except FtpError α) (trace : List Ev)
  deriving Repr, DecidableEq

/-- The trace of actions an outcome carries. -/
def Outcome.trace : Outcome α → List Ev
  | .panicked t => t
  | .done _ t => t

/-- The I/O oracle: for each successive socket/file operation, what the
environment answers.  `wok n` is whether the `n`-th `write_command`
succeeds, `line n` the line the `n`-th `read_line` yields (`none` = I/O
failure), `bindOk`/`connOk` whether binding / connecting a given address
succeeds, and `acceptOk`/`createOk`/`copyOk` whether the accept, the
local `File::create`, and the data-stream copy succeed. -/
structure Orc where
  wok : Nat → Bool
  line : Nat → Option Line
  bindOk : SocketAddrV4 → Bool
  connOk : SocketAddrV4 → Bool
  acceptOk : Bool
  createOk : Bool
  copyOk : Bool

/-- Model of `FtpClient::read_response` for the `n`-th read: a failed `read_line`
propagates as `IoError`, otherwise the line is parsed by the core
`parse_response`. -/
def read_response (o : Orc) (n : Nat) : Except FtpError (Int × Line) :=
  match o.line n with
  | none => .error .ioError
  | some l => parse_response l

/-- Model of `FtpClient::login` (`src/ftp_client.rs`): send USER; on 331 send PASS
and classify its reply (230 ↦ true, 530/430 ↦ false, other ↦ error); on a
direct 230 ↦ true; on 530/430 ↦ false; anything else ↦ error.  Returns
the result together with the trace of actions (a failed write is still
recorded as an attempted write and propagates `IoError`). -/
def login (user pass : String) (o : Orc) :
    Except FtpError Bool × List Ev :=
  if o.wok 0 then
    match read_response o 0 with
    | .ok (code, text) =>
        if code = 331 then
          if o.wok 1 then
            match read_response o 1 with
            | .ok (c2, t2) =>
                if c2 = 230 then
                  (.ok true, [.w (.USER user), .rd, .w (.PASS pass), .rd])
                else if c2 = 530 ∨ c2 = 430 then
                  (.ok false, [.w (.USER user), .rd, .w (.PASS pass), .rd])
                else
                  (.error (to_error (.ok (c2, t2))),
                    [.w (.USER user), .rd, .w (.PASS pass), .rd])
            | .error e =>
                (.error e, [.w (.USER user), .rd, .w (.PASS pass), .rd])
          else (.error .ioError, [.w (.USER user), .rd, .w (.PASS pass)])
        else if code = 230 then (.ok true, [.w (.USER user), .rd])
        else if code = 530 ∨ code = 430 then
          (.ok false, [.w (.USER user), .rd])
        else (.error (to_error (.ok (code, text))), [.w (.USER user), .rd])
    | .error e => (.error e, [.w (.USER user), .rd])
  else (.error .ioError, [.w (.USER user)])

/-- Model of `FtpClient::pwd` (`src/ftp_client.rs`): send PWD; on a 257 reply
return `path[1..path.len()-1]` of the reply text — the first and last
character removed.  When the text has fewer than two characters that
slice is out of bounds and Rust panics. -/
def pwd (o : Orc) : Outcome Line :=
  if o.wok 0 then
    match read_response o 0 with
    | .ok (code, path) =>
        if code = 257 then
          if 2 ≤ path.length then
            .done (.ok ((path.drop 1).take (path.length - 2))) [.w .PWD, .rd]
          else .panicked [.w .PWD, .rd]
        else .done (.error (to_error (.ok (code, path)))) [.w .PWD, .rd]
    | .error e => .done (.error e) [.w .PWD, .rd]
  else .done (.error .ioError) [.w .PWD]

/-- Model of `FtpClient::init_data_transfer_passive` (`src/ftp_client.rs`), called
after the TYPE negotiation (hence its writes are numbered from 1 and its
reads from 1): send PASV; on a 227 reply extract the address tuple
(`pasvParseAddr`; a malformed tuple panics); send the transfer command;
connect outward; require a 150 reply, then return the connected socket
(represented by the address it is connected to). -/
def init_data_transfer_passive (command : FtpCommand) (o : Orc) :
    Outcome SocketAddrV4 :=
  if o.wok 1 then
    match read_response o 1 with
    | .ok (code, line) =>
        if code = 227 then
          match pasvParseAddr line with
          | none => .panicked [.w .PASV, .rd]
          | some addr =>
              if o.wok 2 then
                if o.connOk addr then
                  match read_response o 2 with
                  | .ok (c2, t2) =>
                      if c2 = 150 then
                        .done (.ok addr)
                          [.w .PASV, .rd, .w command, .conn addr, .rd]
                      else
                        .done (.error (to_error (.ok (c2, t2))))
                          [.w .PASV, .rd, .w command, .conn addr, .rd]
                  | .error e =>
                      .done (.error e)
                        [.w .PASV, .rd, .w command, .conn addr, .rd]
                else .done (.error .ioError)
                    [.w .PASV, .rd, .w command, .conn addr]
              else .done (.error .ioError) [.w .PASV, .rd, .w command]
        else .done (.error (to_error (.ok (code, line)))) [.w .PASV, .rd]
    | .error e => .done (.error e) [.w .PASV, .rd]
  else .done (.error .ioError) [.w .PASV]

/-- Model of `FtpClient::init_data_transfer_active` (`src/ftp_client.rs`), called
after the TYPE negotiation: a single `TcpListener::bind` on the address
stored in `FtpMode::Active` (a failed bind propagates `IoError`
immediately); send PORT with that same address; require 200; send the
transfer command; require 150; accept the one incoming connection. -/
def init_data_transfer_active (command : FtpCommand) (addr : SocketAddrV4)
    (o : Orc) : Outcome SocketAddrV4 :=
  if o.bindOk addr then
    if o.wok 1 then
      match read_response o 1 with
      | .ok (code, text) =>
          if code = 200 then
            if o.wok 2 then
              match read_response o 2 with
              | .ok (c2, t2) =>
                  if c2 = 150 then
                    if o.acceptOk then
                      .done (.ok addr)
                        [.bindL addr, .w (.PORT addr), .rd, .w command,
                          .rd, .acc]
                    else
                      .done (.error .ioError)
                        [.bindL addr, .w (.PORT addr), .rd, .w command,
                          .rd, .acc]
                  else
                    .done (.error (to_error (.ok (c2, t2))))
                      [.bindL addr, .w (.PORT addr), .rd, .w command, .rd]
              | .error e =>
                  .done (.error e)
                    [.bindL addr, .w (.PORT addr), .rd, .w command, .rd]
            else .done (.error .ioError)
                [.bindL addr, .w (.PORT addr), .rd, .w command]
          else
            .done (.error (to_error (.ok (code, text))))
              [.bindL addr, .w (.PORT addr), .rd]
      | .error e => .done (.error e) [.bindL addr, .w (.PORT addr), .rd]
    else .done (.error .ioError) [.bindL addr, .w (.PORT addr)]
  else .done (.error .ioError) [.bindL addr]

/-- The transfer mode of `src/ftp_client.rs` (`FtpMode`). -/
inductive FtpMode where
  | Active (addr : SocketAddrV4)
  | Passive
  deriving Repr, DecidableEq

/-- Model of `FtpClient::init_data_transfer` (`src/ftp_client.rs`): send TYPE
(write 0), require 200 (read 0), then dispatch on the current mode. -/
def init_data_transfer (command : FtpCommand) (transfer : FtpTransferType)
    (mode : FtpMode) (o : Orc) : Outcome SocketAddrV4 :=
  if o.wok 0 then
    match read_response o 0 with
    | .ok (code, text) =>
        if code = 200 then
          match (match mode with
                 | .Active addr => init_data_transfer_active command addr o
                 | .Passive => init_data_transfer_passive command o) with
          | .panicked tr => .panicked ([.w (.TYPE transfer), .rd] ++ tr)
          | .done r tr => .done r ([.w (.TYPE transfer), .rd] ++ tr)
        else
          .done (.error (to_error (.ok (code, text))))
            [.w (.TYPE transfer), .rd]
    | .error e => .done (.error e) [.w (.TYPE transfer), .rd]
  else .done (.error .ioError) [.w (.TYPE transfer)]

/-- Model of `FtpClient::end_data_transfer` (`src/ftp_client.rs`): read the next
reply (read 3 in a `get`) and require 226; anything else becomes an error
via `to_error`. -/
def end_data_transfer (o : Orc) : Except FtpError Unit :=
  match read_response o 3 with
  | .ok (code, text) =>
      if code = 226 then .ok ()
      else .error (to_error (.ok (code, text)))
  | .error e => .error e

/-- Model of `FtpClient::get` (`src/ftp_client.rs`): negotiate the data channel
for `RETR` in binary mode, then `File::create` the destination (a
failure propagates `IoError`), stream the data channel into it, and
confirm with `end_data_transfer`.  The destination file is never
removed on any path. -/
def FtpClient.get (remote localPath : String) (mode : FtpMode) (o : Orc) : Outcome Unit :=
  match init_data_transfer (.RETR remote) .Binary mode o with
  | .panicked tr => .panicked tr
  | .done (.error e) tr => .done (.error e) tr
  | .done (.ok _) tr =>
      if o.createOk then
        if o.copyOk then
          match end_data_transfer o with
          | .ok _ => .done (.ok ()) (tr ++ [.fcreate localPath, .copyData, .rd])
          | .error e =>
              .done (.error e) (tr ++ [.fcreate localPath, .copyData, .rd])
        else .done (.error .ioError) (tr ++ [.fcreate localPath, .copyData])
      else .done (.error .ioError) (tr ++ [.fcreate localPath])


/-! ## Helper lemmas about the line-level functions -/

theorem findSpace_of_not_mem {l : Line} (h : ' ' ∉ l) : findSpace l = none := by
  induction l with
  | nil => rfl
  | cons c cs ih =>
      simp only [List.mem_cons, not_or] at h
      have hc : ¬c = ' ' := fun hc => h.1 hc.symm
      simp [findSpace, hc, ih h.2]

theorem findSpace_append {pre : Line} (rest : Line) (h : ' ' ∉ pre) :
    findSpace (pre ++ ' ' :: rest) = some pre.length := by
  induction pre with
  | nil => simp [findSpace]
  | cons c cs ih =>
      simp only [List.mem_cons, not_or] at h
      have hc : ¬c = ' ' := fun hc => h.1 hc.symm
      simp [findSpace, hc, ih h.2]

theorem take_len_append (pre suf : Line) : (pre ++ suf).take pre.length = pre := by
  induction pre with
  | nil => rfl
  | cons c cs ih => simp [ih]

theorem drop_succ_append (pre rest : Line) :
    (pre ++ ' ' :: rest).drop (pre.length + 1) = rest := by
  induction pre with
  | nil => rfl
  | cons c cs ih => simp [ih]

/-! ## C1 -/

/-- C1: for every line read from the control channel, `read_response`
fails with `InvalidResponse` when the line contains no space, and when
the prefix before the first space does not parse as an `i32`; otherwise
it returns the parsed code paired with the trailing text trimmed of
surrounding whitespace.  In particular
`"226 Closing data connection.\n"` parses to code 226 and text
`"Closing data connection."`. -/
theorem C1_read_response (line pre rest : Line) :
    ((' ' ∉ line) → parse_response line = .error (.invalidResponse line)) ∧
    (line = pre ++ ' ' :: rest → ' ' ∉ pre →
      (parseI32 pre = none →
        parse_response line = .error (.invalidResponse line)) ∧
      (∀ code, parseI32 pre = some code →
        parse_response line = .ok (code, trimLine rest))) ∧
    parse_response "226 Closing data connection.\n".data =
      .ok (226, "Closing data connection.".data) := by
  refine ⟨?_, ?_, by decide⟩
  · intro h
    simp [parse_response, findSpace_of_not_mem h]
  · intro heq hpre
    subst heq
    have hf := findSpace_append rest hpre
    have ht := take_len_append pre (' ' :: rest)
    have hd := drop_succ_append pre rest
    constructor
    · intro hnone
      simp [parse_response, hf, ht, hnone]
    · intro code hcode
      simp [parse_response, hf, ht, hd, hcode]

/-- Witness for C1 at concrete inputs: the example line of the claim, and
a line with no space. -/
theorem C1_read_response_witness :
    parse_response "226 Closing data connection.\n".data =
      .ok (226, "Closing data connection.".data) ∧
    parse_response "226-hello".data =
      .error (.invalidResponse "226-hello".data) := by
  constructor
  · have h := ((C1_read_response "226 Closing data connection.\n".data
      "226".data "Closing data connection.\n".data).2.1
        (by decide) (by decide)).2 226 (by decide)
    rw [h]; decide
  · exact (C1_read_response "226-hello".data [] []).1 (by decide)

/-! ## C9 -/

/-- C9: the response parser does not restrict reply codes to three
digits: `"12345 ok"` parses to code 12345 and `"0 hi"` to code 0, even
though neither 12345 nor 0 is a three-digit (100–999) code. -/
theorem C9_non_three_digit_codes :
    parse_response "12345 ok".data = .ok (12345, "ok".data) ∧
    parse_response "0 hi".data = .ok (0, "hi".data) ∧
    ¬(100 ≤ (12345 : Int) ∧ (12345 : Int) ≤ 999) ∧
    ¬(100 ≤ (0 : Int) ∧ (0 : Int) ≤ 999) := by
  refine ⟨by decide, by decide, by decide, by decide⟩

/-! ## C2 -/

/-- C2: the PORT encoder and the six-octet decoding are mutually
inverse: reconstructing `to_ftp_port (port/256) (port%256)` yields the
port back (so the whole address round-trips), and encoding
`127.0.0.1:5136` produces the tuple `127,0,0,1,20,16`, which decodes to
the identical address and port. -/
theorem C2_port_roundtrip (a : SocketAddrV4) (h : a.port < 65536) :
    to_ftp_port (a.port / 256) (a.port % 256) = a.port ∧
    SocketAddrV4.mk a.o1 a.o2 a.o3 a.o4
      (to_ftp_port (a.port / 256) (a.port % 256)) = a ∧
    (FtpCommand.PORT ⟨127, 0, 0, 1, 5136⟩).to_string =
      "PORT 127,0,0,1,20,16\n" ∧
    pasvParseAddr "(127,0,0,1,20,16)".data = some ⟨127, 0, 0, 1, 5136⟩ := by
  have hp : to_ftp_port (a.port / 256) (a.port % 256) = a.port := by
    unfold to_ftp_port
    omega
  refine ⟨hp, ?_, by decide, by decide⟩
  rw [hp]

/-- Witness for C2 at the claim's concrete address `127.0.0.1:5136`. -/
theorem C2_port_roundtrip_witness :
    to_ftp_port (5136 / 256) (5136 % 256) = 5136 ∧
    (FtpCommand.PORT ⟨127, 0, 0, 1, 5136⟩).to_string =
      "PORT 127,0,0,1,20,16\n" := by
  have h := C2_port_roundtrip ⟨127, 0, 0, 1, 5136⟩ (by decide)
  exact ⟨h.1, h.2.2.1⟩

/-! ## C3 -/

/-- C3: for every user/password pair, `login` sends USER and: on reply
331 it sends PASS and returns `Ok true` on 230, `Ok false` on 430 or
530, and an error on any other code or I/O failure; on a direct 230 it
returns `Ok true` without sending PASS; on a direct 430 or 530 it
returns `Ok false` without sending PASS; any other code or an I/O
failure is returned as an error, never as a boolean. -/
theorem C3_login (u p : String) (o : Orc) (hw : ∀ n, o.wok n = true) :
    (∀ t t', read_response o 0 = .ok (331, t) →
      read_response o 1 = .ok (230, t') →
      login u p o = (.ok true, [.w (.USER u), .rd, .w (.PASS p), .rd])) ∧
    (∀ t t' c, read_response o 0 = .ok (331, t) →
      read_response o 1 = .ok (c, t') → (c = 430 ∨ c = 530) →
      login u p o = (.ok false, [.w (.USER u), .rd, .w (.PASS p), .rd])) ∧
    (∀ t t' c, read_response o 0 = .ok (331, t) →
      read_response o 1 = .ok (c, t') →
      c ≠ 230 → c ≠ 430 → c ≠ 530 →
      login u p o = (.error (to_error (.ok (c, t'))),
        [.w (.USER u), .rd, .w (.PASS p), .rd])) ∧
    (∀ t e, read_response o 0 = .ok (331, t) →
      read_response o 1 = .error e →
      login u p o = (.error e, [.w (.USER u), .rd, .w (.PASS p), .rd])) ∧
    (∀ t, read_response o 0 = .ok (230, t) →
      login u p o = (.ok true, [.w (.USER u), .rd])) ∧
    (∀ t c, read_response o 0 = .ok (c, t) → (c = 430 ∨ c = 530) →
      login u p o = (.ok false, [.w (.USER u), .rd])) ∧
    (∀ t c, read_response o 0 = .ok (c, t) →
      c ≠ 331 → c ≠ 230 → c ≠ 430 → c ≠ 530 →
      login u p o = (.error (to_error (.ok (c, t))), [.w (.USER u), .rd])) ∧
    (∀ e, read_response o 0 = .error e →
      login u p o = (.error e, [.w (.USER u), .rd])) := by
  refine ⟨?_, ?_, ?_, ?_, ?_, ?_, ?_, ?_⟩
  · intro t t' h0 h1
    simp [login, hw 0, hw 1, h0, h1]
  · rintro t t' c h0 h1 (rfl | rfl) <;> simp [login, hw 0, hw 1, h0, h1]
  · intro t t' c h0 h1 hc2 hc4 hc5
    simp [login, hw 0, hw 1, h0, h1, hc2, hc4, hc5]
  · intro t e h0 h1
    simp [login, hw 0, hw 1, h0, h1]
  · intro t h0
    simp [login, hw 0, h0]
  · rintro t c h0 (rfl | rfl) <;> simp [login, hw 0, h0]
  · intro t c h0 hc1 hc2 hc4 hc5
    simp [login, hw 0, h0, hc1, hc2, hc4, hc5]
  · intro e h0
    simp [login, hw 0, h0]

/-- Witness for C3: the 331-then-230 sequence at a concrete oracle. -/
theorem C3_login_witness :
    login "alice" "secret"
      { wok := fun _ => true,
        line := fun n =>
          if n = 0 then some "331 Password required\n".data
          else some "230 Logged in\n".data,
        bindOk := fun _ => true, connOk := fun _ => true,
        acceptOk := true, createOk := true, copyOk := true } =
      (.ok true, [.w (.USER "alice"), .rd, .w (.PASS "secret"), .rd]) := by
  exact (C3_login "alice" "secret" _ (fun _ => rfl)).1
    "Password required".data "Logged in".data (by decide) (by decide)

/-! ## Helper lemmas about data-channel establishment traces -/

/-- Is this event a local-file action (create/remove/stream copy)? -/
def Ev.isFile : Ev → Bool
  | .fcreate _ => true
  | .fremove _ => true
  | .copyData => true
  | _ => false

theorem passive_done_ok {command : FtpCommand} {o : Orc} {a : SocketAddrV4}
    {tr : List Ev}
    (h : init_data_transfer_passive command o = .done (.ok a) tr) :
    tr = [.w .PASV, .rd, .w command, .conn a, .rd] ∧
    ∃ t, read_response o 2 = .ok (150, t) := by
  unfold init_data_transfer_passive at h
  split at h
  · split at h
    · rename_i code text hr1
      split at h
      · rename_i hc
        subst hc
        split at h
        · simp at h
        · rename_i addr hp
          split at h
          · split at h
            · split at h
              · rename_i c2 t2 hr2
                split at h
                · rename_i hc2
                  subst hc2
                  simp only [Outcome.done.injEq, Except.ok.injEq] at h
                  obtain ⟨rfl, rfl⟩ := h
                  exact ⟨rfl, t2, hr2⟩
                · simp at h
              · simp at h
            · simp at h
          · simp at h
      · simp at h
    · simp at h
  · simp at h

theorem active_done_ok {command : FtpCommand} {addr : SocketAddrV4} {o : Orc}
    {a : SocketAddrV4} {tr : List Ev}
    (h : init_data_transfer_active command addr o = .done (.ok a) tr) :
    a = addr ∧
    tr = [.bindL addr, .w (.PORT addr), .rd, .w command, .rd, .acc] := by
  unfold init_data_transfer_active at h
  split at h
  · split at h
    · split at h
      · rename_i code text hr1
        split at h
        · rename_i hc
          subst hc
          split at h
          · split at h
            · rename_i c2 t2 hr2
              split at h
              · rename_i hc2
                subst hc2
                split at h
                · simp only [Outcome.done.injEq, Except.ok.injEq] at h
                  obtain ⟨rfl, rfl⟩ := h
                  exact ⟨rfl, rfl⟩
                · simp at h
              · simp at h
            · simp at h
          · simp at h
        · simp at h
      · simp at h
    · simp at h
  · simp at h

theorem passive_no_fileEv (command : FtpCommand) (o : Orc) :
    ((init_data_transfer_passive command o).trace.all
      fun e => !e.isFile) = true := by
  unfold init_data_transfer_passive
  repeat' split
  all_goals rfl

theorem active_no_fileEv (command : FtpCommand) (addr : SocketAddrV4)
    (o : Orc) :
    ((init_data_transfer_active command addr o).trace.all
      fun e => !e.isFile) = true := by
  unfold init_data_transfer_active
  repeat' split
  all_goals rfl

theorem init_no_fileEv (command : FtpCommand) (transfer : FtpTransferType)
    (mode : FtpMode) (o : Orc) :
    ((init_data_transfer command transfer mode o).trace.all
      fun e => !e.isFile) = true := by
  cases mode with
  | Active addr =>
      unfold init_data_transfer
      split
      · split
        · split
          · split
            · rename_i tr hsub
              have hsub2 : init_data_transfer_active command addr o =
                  Outcome.panicked tr := hsub
              have hall := active_no_fileEv command addr o
              rw [hsub2] at hall
              simpa [Outcome.trace, Ev.isFile] using hall
            · rename_i r tr hsub
              have hsub2 : init_data_transfer_active command addr o =
                  Outcome.done r tr := hsub
              have hall := active_no_fileEv command addr o
              rw [hsub2] at hall
              simpa [Outcome.trace, Ev.isFile] using hall
          · rfl
        · rfl
      · rfl
  | Passive =>
      unfold init_data_transfer
      split
      · split
        · split
          · split
            · rename_i tr hsub
              have hsub2 : init_data_transfer_passive command o =
                  Outcome.panicked tr := hsub
              have hall := passive_no_fileEv command o
              rw [hsub2] at hall
              simpa [Outcome.trace, Ev.isFile] using hall
            · rename_i r tr hsub
              have hsub2 : init_data_transfer_passive command o =
                  Outcome.done r tr := hsub
              have hall := passive_no_fileEv command o
              rw [hsub2] at hall
              simpa [Outcome.trace, Ev.isFile] using hall
          · rfl
        · rfl
      · rfl

theorem listGetQ_append_left {α : Type} (l₁ l₂ : List α) (n : Nat)
    (h : n < l₁.length) : (l₁ ++ l₂).get? n = l₁.get? n := by
  induction l₁ generalizing n with
  | nil => simp at h
  | cons a l ih =>
      cases n with
      | zero => rfl
      | succ m => exact ih m (Nat.lt_of_succ_lt_succ h)

theorem listGetQ_mem {α : Type} {l : List α} {n : Nat} {a : α}
    (h : l.get? n = some a) : a ∈ l := by
  induction l generalizing n with
  | nil => simp [List.get?] at h
  | cons b l ih =>
      cases n with
      | zero =>
          injection h with h
          exact h ▸ List.mem_cons_self b l
      | succ m => exact List.mem_cons_of_mem _ (ih h)

theorem init_done_ok {command : FtpCommand} {transfer : FtpTransferType}
    {mode : FtpMode} {o : Orc} {a : SocketAddrV4} {tr : List Ev}
    (h : init_data_transfer command transfer mode o = .done (.ok a) tr) :
    ∃ j, j < tr.length ∧
      (tr.get? j = some (.conn a) ∨ tr.get? j = some .acc) := by
  cases mode with
  | Active addr =>
      unfold init_data_transfer at h
      split at h
      · split at h
        · rename_i code text hr0
          split at h
          · split at h
            · simp at h
            · rename_i r tr2 hsub
              have hsub2 : init_data_transfer_active command addr o =
                  Outcome.done r tr2 := hsub
              simp only [Outcome.done.injEq] at h
              obtain ⟨rfl, rfl⟩ := h
              obtain ⟨rfl, rfl⟩ := active_done_ok hsub2
              exact ⟨7, by simp, Or.inr rfl⟩
          · simp at h
        · simp at h
      · simp at h
  | Passive =>
      unfold init_data_transfer at h
      split at h
      · split at h
        · rename_i code text hr0
          split at h
          · split at h
            · simp at h
            · rename_i r tr2 hsub
              have hsub2 : init_data_transfer_passive command o =
                  Outcome.done r tr2 := hsub
              simp only [Outcome.done.injEq] at h
              obtain ⟨rfl, rfl⟩ := h
              obtain ⟨htr2, -⟩ := passive_done_ok hsub2
              subst htr2
              exact ⟨5, by simp, Or.inl rfl⟩
          · simp at h
        · simp at h
      · simp at h

theorem fremove_not_mem_of_all {p : String} {tr : List Ev}
    (hall : (tr.all fun e => !e.isFile) = true) : Ev.fremove p ∉ tr := by
  simp only [List.all_eq_true] at hall
  intro hm
  have := hall _ hm
  simp [Ev.isFile] at this

theorem fcreate_not_mem_of_all {p : String} {tr : List Ev}
    (hall : (tr.all fun e => !e.isFile) = true) : Ev.fcreate p ∉ tr := by
  simp only [List.all_eq_true] at hall
  intro hm
  have := hall _ hm
  simp [Ev.isFile] at this

/-! ## C10 -/

/-- C10: in `get`, the destination file is created only after the data
channel has been successfully negotiated (some outward connect or accept
strictly precedes the creation in the trace); if `File::create` fails,
`get` returns `IoError` having performed no streaming and no
transfer-completion read beyond the negotiation trace; and no execution
of `get` ever removes the destination file. -/
theorem C10_get_file_lifecycle (remote localPath : String) (mode : FtpMode)
    (o : Orc) :
    (∀ i, ((FtpClient.get remote localPath mode o).trace).get? i =
        some (.fcreate localPath) →
      ∃ j, j < i ∧
        ((∃ a, ((FtpClient.get remote localPath mode o).trace).get? j =
            some (.conn a)) ∨
          ((FtpClient.get remote localPath mode o).trace).get? j = some .acc)) ∧
    (o.createOk = false → ∀ a tr,
      init_data_transfer (.RETR remote) .Binary mode o = .done (.ok a) tr →
      FtpClient.get remote localPath mode o =
        .done (.error .ioError) (tr ++ [.fcreate localPath]) ∧
      Ev.copyData ∉ tr ++ [.fcreate localPath]) ∧
    (∀ p, Ev.fremove p ∉ (FtpClient.get remote localPath mode o).trace) := by
  refine ⟨?_, ?_, ?_⟩
  · intro i hi
    cases hI : init_data_transfer (.RETR remote) .Binary mode o with
    | panicked tr =>
        have htr : (FtpClient.get remote localPath mode o).trace = tr := by
          simp [FtpClient.get, hI, Outcome.trace]
        rw [htr] at hi
        have hall := init_no_fileEv (.RETR remote) .Binary mode o
        rw [hI] at hall
        exact absurd (listGetQ_mem hi)
          (fcreate_not_mem_of_all (by simpa [Outcome.trace] using hall))
    | done r tr =>
        cases r with
        | error e =>
            have htr : (FtpClient.get remote localPath mode o).trace = tr := by
              simp [FtpClient.get, hI, Outcome.trace]
            rw [htr] at hi
            have hall := init_no_fileEv (.RETR remote) .Binary mode o
            rw [hI] at hall
            exact absurd (listGetQ_mem hi)
              (fcreate_not_mem_of_all (by simpa [Outcome.trace] using hall))
        | ok a =>
            have hall := init_no_fileEv (.RETR remote) .Binary mode o
            rw [hI] at hall
            have hall' : (tr.all fun e => !e.isFile) = true := by
              simpa [Outcome.trace] using hall
            have hex : ∃ L, (FtpClient.get remote localPath mode o).trace = tr ++ L := by
              simp only [FtpClient.get, hI]
              split
              · split
                · split <;> exact ⟨_, rfl⟩
                · exact ⟨_, rfl⟩
              · exact ⟨_, rfl⟩
            obtain ⟨L, hL⟩ := hex
            rw [hL] at hi ⊢
            have hilen : tr.length ≤ i := by
              by_contra hlt
              push_neg at hlt
              rw [listGetQ_append_left tr L i hlt] at hi
              exact (fcreate_not_mem_of_all hall') (listGetQ_mem hi)
            obtain ⟨j, hj, hdisj⟩ := init_done_ok hI
            refine ⟨j, lt_of_lt_of_le hj hilen, ?_⟩
            rcases hdisj with hconn | hacc
            · exact Or.inl ⟨a, by rw [listGetQ_append_left tr L j hj]; exact hconn⟩
            · exact Or.inr (by rw [listGetQ_append_left tr L j hj]; exact hacc)
  · intro hcr a tr hI
    have hall := init_no_fileEv (.RETR remote) .Binary mode o
    rw [hI] at hall
    have hall' : (tr.all fun e => !e.isFile) = true := by
      simpa [Outcome.trace] using hall
    constructor
    · simp [FtpClient.get, hI, hcr]
    · intro hm
      rcases List.mem_append.mp hm with hm | hm
      · simp only [List.all_eq_true] at hall'
        have := hall' _ hm
        simp [Ev.isFile] at this
      · simp at hm
  · intro p
    cases hI : init_data_transfer (.RETR remote) .Binary mode o with
    | panicked tr =>
        have htr : (FtpClient.get remote localPath mode o).trace = tr := by
          simp [FtpClient.get, hI, Outcome.trace]
        rw [htr]
        have hall := init_no_fileEv (.RETR remote) .Binary mode o
        rw [hI] at hall
        exact fremove_not_mem_of_all (by simpa [Outcome.trace] using hall)
    | done r tr =>
        cases r with
        | error e =>
            have htr : (FtpClient.get remote localPath mode o).trace = tr := by
              simp [FtpClient.get, hI, Outcome.trace]
            rw [htr]
            have hall := init_no_fileEv (.RETR remote) .Binary mode o
            rw [hI] at hall
            exact fremove_not_mem_of_all (by simpa [Outcome.trace] using hall)
        | ok a =>
            have hall := init_no_fileEv (.RETR remote) .Binary mode o
            rw [hI] at hall
            have hall' : (tr.all fun e => !e.isFile) = true := by
              simpa [Outcome.trace] using hall
            have hex : ∃ L, (FtpClient.get remote localPath mode o).trace = tr ++ L ∧
                Ev.fremove p ∉ L := by
              simp only [FtpClient.get, hI]
              split
              · split
                · split <;> exact ⟨_, rfl, by simp⟩
                · exact ⟨_, rfl, by simp⟩
              · exact ⟨_, rfl, by simp⟩
            obtain ⟨L, hL, hnL⟩ := hex
            rw [hL]
            intro hm
            rcases List.mem_append.mp hm with hm | hm
            · exact (fremove_not_mem_of_all hall') hm
            · exact hnL hm

/-- Concrete oracle for the C10 witness: passive negotiation succeeds,
`File::create` fails. -/
def o10 : Orc :=
  { wok := fun _ => true,
    line := fun n =>
      if n = 0 then some "200 Ok\n".data
      else if n = 1 then
        some "227 Entering Passive Mode (127,0,0,1,20,16).\n".data
      else some "150 Opening data connection.\n".data,
    bindOk := fun _ => true, connOk := fun _ => true,
    acceptOk := true, createOk := false, copyOk := true }

/-- Witness for C10: with a successful passive negotiation and a failing
`File::create`, `get` stops with `IoError`, having streamed nothing. -/
theorem C10_get_file_lifecycle_witness :
    FtpClient.get "remote.txt" "local.txt" .Passive o10 =
      .done (.error .ioError)
        ([.w (.TYPE .Binary), .rd, .w .PASV, .rd, .w (.RETR "remote.txt"),
          .conn ⟨127, 0, 0, 1, 5136⟩, .rd] ++ [.fcreate "local.txt"]) ∧
    Ev.copyData ∉
      [Ev.w (.TYPE .Binary), .rd, .w .PASV, .rd, .w (.RETR "remote.txt"),
        .conn ⟨127, 0, 0, 1, 5136⟩, .rd] ++ [Ev.fcreate "local.txt"] :=
  (C10_get_file_lifecycle "remote.txt" "local.txt" .Passive o10).2.1 rfl
    ⟨127, 0, 0, 1, 5136⟩ _ (by decide)

/-! ## C7 -/

/-- C7: for every download over an established passive data channel whose
copy completes, if the confirmation reply has code 550 then `get` returns
`OperationFailed` carrying the server text, even though the trace shows
the destination file was created and the bytes were streamed into it. -/
theorem C7_get_550_reports_failure (remote localPath : String) (o : Orc)
    (a : SocketAddrV4) (t t0 t1 t2 : Line)
    (hw0 : o.wok 0 = true) (hw1 : o.wok 1 = true) (hw2 : o.wok 2 = true)
    (h0 : read_response o 0 = .ok (200, t0))
    (h1 : read_response o 1 = .ok (227, t1))
    (hp : pasvParseAddr t1 = some a)
    (hc : o.connOk a = true)
    (h2 : read_response o 2 = .ok (150, t2))
    (hcr : o.createOk = true) (hcp : o.copyOk = true)
    (h3 : read_response o 3 = .ok (550, t)) :
    FtpClient.get remote localPath .Passive o =
      .done (.error (.operationFailed t))
        [.w (.TYPE .Binary), .rd, .w .PASV, .rd, .w (.RETR remote),
          .conn a, .rd, .fcreate localPath, .copyData, .rd] ∧
    Ev.copyData ∈ (FtpClient.get remote localPath .Passive o).trace := by
  have hmain : FtpClient.get remote localPath .Passive o =
      .done (.error (.operationFailed t))
        [.w (.TYPE .Binary), .rd, .w .PASV, .rd, .w (.RETR remote),
          .conn a, .rd, .fcreate localPath, .copyData, .rd] := by
    simp [FtpClient.get, init_data_transfer, init_data_transfer_passive,
      end_data_transfer, to_error, hw0, hw1, hw2, h0, h1, hp, hc, h2,
      hcr, hcp, h3]
  refine ⟨hmain, ?_⟩
  rw [hmain]
  simp [Outcome.trace]

/-- Concrete oracle for the C7 witness: everything succeeds until the
confirmation reply, which is `550 Failed to open file.`. -/
def o7 : Orc :=
  { wok := fun _ => true,
    line := fun n =>
      if n = 0 then some "200 Ok\n".data
      else if n = 1 then
        some "227 Entering Passive Mode (127,0,0,1,20,16).\n".data
      else if n = 2 then some "150 Opening data connection.\n".data
      else some "550 Failed to open file.\n".data,
    bindOk := fun _ => true, connOk := fun _ => true,
    acceptOk := true, createOk := true, copyOk := true }

/-- Witness for C7 at the concrete oracle `o7`. -/
theorem C7_get_550_reports_failure_witness :
    FtpClient.get "remote.txt" "local.txt" .Passive o7 =
      .done (.error (.operationFailed "Failed to open file.".data))
        [.w (.TYPE .Binary), .rd, .w .PASV, .rd, .w (.RETR "remote.txt"),
          .conn ⟨127, 0, 0, 1, 5136⟩, .rd, .fcreate "local.txt",
          .copyData, .rd] :=
  (C7_get_550_reports_failure "remote.txt" "local.txt" o7
    ⟨127, 0, 0, 1, 5136⟩ "Failed to open file.".data "Ok".data
    "Entering Passive Mode (127,0,0,1,20,16).".data
    "Opening data connection.".data
    rfl rfl rfl (by decide) (by decide) (by decide) rfl (by decide)
    rfl rfl (by decide)).1

/-! ## C4 -/

/-- Oracle whose 227 reply text has no parenthesized tuple at all. -/
def o4 : Orc :=
  { wok := fun _ => true,
    line := fun _ => some "227 Entering Passive Mode 127,0,0,1,20,16\n".data,
    bindOk := fun _ => true, connOk := fun _ => true,
    acceptOk := true, createOk := true, copyOk := true }

/-- Oracle whose 227 reply has a parenthesized tuple with a non-numeric
field. -/
def o4b : Orc :=
  { wok := fun _ => true,
    line := fun _ => some "227 Entering Passive Mode (127,0,0,1,20,x)\n".data,
    bindOk := fun _ => true, connOk := fun _ => true,
    acceptOk := true, createOk := true, copyOk := true }

/-- C4 (behaviour of the code at the claim's inputs): a 227 reply whose
text lacks the parenthesization, or whose parenthesized fields are not
all numeric, makes `init_data_transfer_passive` panic — the `unwrap`ed
`rfind('(')` (resp. the `unwrap`ed `u8` parse) aborts the process —
instead of returning an `InvalidResponse`/parse-error value as the claim
states.  The third conjunct isolates the failing `rfind`. -/
theorem C4_passive_malformed_panics :
    init_data_transfer_passive (.RETR "file.txt") o4 =
      .panicked [.w .PASV, .rd] ∧
    init_data_transfer_passive (.RETR "file.txt") o4b =
      .panicked [.w .PASV, .rd] ∧
    rfindIdx '(' "Entering Passive Mode 127,0,0,1,20,16".data = none := by
  refine ⟨by decide, by decide, by decide⟩

/-! ## C5 -/

/-- Oracle replying `257 "/home/user" is the current directory.`. -/
def o5 : Orc :=
  { wok := fun _ => true,
    line := fun _ =>
      some "257 \"/home/user\" is the current directory.\n".data,
    bindOk := fun _ => true, connOk := fun _ => true,
    acceptOk := true, createOk := true, copyOk := true }

/-- Counterexample for C5: on the claim's reply, `pwd` does not return
`/home/user`; it returns the reply text with only its first and last
characters removed, i.e. `/home/user" is the current directory`. -/
theorem C5_pwd_counterexample :
    pwd o5 =
      .done (.ok "/home/user\" is the current directory".data)
        [.w .PWD, .rd] ∧
    "/home/user\" is the current directory".data ≠ "/home/user".data := by
  refine ⟨by decide, by decide⟩

/-- C5 (amended): on a 257 reply, `pwd` returns the reply text with its
first and last characters removed (no quote matching); consequently the
quoted pathname alone is recovered exactly when the reply text is the
quoted path with no trailing commentary. -/
theorem C5_pwd_amended (o : Orc) (t : Line) (hw : o.wok 0 = true)
    (h0 : read_response o 0 = .ok (257, t)) (hlen : 2 ≤ t.length) :
    pwd o = .done (.ok ((t.drop 1).take (t.length - 2))) [.w .PWD, .rd] ∧
    ∀ inner : Line, t = '"' :: (inner ++ ['"']) →
      pwd o = .done (.ok inner) [.w .PWD, .rd] := by
  have hmain : pwd o =
      .done (.ok ((t.drop 1).take (t.length - 2))) [.w .PWD, .rd] := by
    simp [pwd, hw, h0, hlen]
  refine ⟨hmain, ?_⟩
  rintro inner rfl
  have hdrop : ('"' :: (inner ++ ['"'])).drop 1 = inner ++ ['"'] := rfl
  have hlen2 : ('"' :: (inner ++ ['"'])).length - 2 = inner.length := by
    simp
  rw [hmain, hdrop, hlen2, take_len_append]

/-- Oracle replying `257 "/home/user"` with no commentary. -/
def o5b : Orc :=
  { wok := fun _ => true,
    line := fun _ => some "257 \"/home/user\"\n".data,
    bindOk := fun _ => true, connOk := fun _ => true,
    acceptOk := true, createOk := true, copyOk := true }

/-- Witness for the amended C5: with no commentary in the reply text the
quotes are indeed stripped. -/
theorem C5_pwd_amended_witness :
    pwd o5b = .done (.ok "/home/user".data) [.w .PWD, .rd] :=
  (C5_pwd_amended o5b "\"/home/user\"".data rfl (by decide) (by decide)).2
    "/home/user".data (by decide)

/-! ## C6 -/

/-- Oracle for a fully successful passive establishment. -/
def o6 : Orc :=
  { wok := fun _ => true,
    line := fun n =>
      if n = 1 then
        some "227 Entering Passive Mode (127,0,0,1,20,16).\n".data
      else some "150 Opening data connection.\n".data,
    bindOk := fun _ => true, connOk := fun _ => true,
    acceptOk := true, createOk := true, copyOk := true }

/-- Counterexample for C6: in a successful passive establishment the
write of the transfer command sits at index 2 of the event trace and the
outward data connection at index 3 — the write precedes the connect, so
the connection does not precede the write. -/
theorem C6_passive_counterexample :
    init_data_transfer_passive (.RETR "file.txt") o6 =
      .done (.ok ⟨127, 0, 0, 1, 5136⟩)
        [.w .PASV, .rd, .w (.RETR "file.txt"),
          .conn ⟨127, 0, 0, 1, 5136⟩, .rd] ∧
    [Ev.w .PASV, .rd, .w (.RETR "file.txt"),
      .conn ⟨127, 0, 0, 1, 5136⟩, .rd].indexOf (Ev.w (.RETR "file.txt")) = 2 ∧
    [Ev.w .PASV, .rd, .w (.RETR "file.txt"),
      .conn ⟨127, 0, 0, 1, 5136⟩, .rd].indexOf
        (Ev.conn ⟨127, 0, 0, 1, 5136⟩) = 3 := by
  refine ⟨by decide, by decide, by decide⟩

/-- C6 (amended): in passive mode, after the 227 reply is parsed, the
client first writes the transfer command on the control channel and only
then connects outward to the parsed address; the 150 reply is required
before the connected socket is returned.  Every successful passive
establishment has the event trace
`[PASV write, read, command write, connect, read]`, with the command
write at index 2 strictly before the unique connect at index 3. -/
theorem C6_passive_write_before_connect (command : FtpCommand) (o : Orc)
    (a : SocketAddrV4) (tr : List Ev)
    (h : init_data_transfer_passive command o = .done (.ok a) tr) :
    tr = [.w .PASV, .rd, .w command, .conn a, .rd] ∧
    tr.get? 2 = some (.w command) ∧
    tr.get? 3 = some (.conn a) ∧
    (∀ i, tr.get? i = some (.conn a) → i = 3) ∧
    ∃ t, read_response o 2 = .ok (150, t) := by
  obtain ⟨htr, ht⟩ := passive_done_ok h
  subst htr
  refine ⟨rfl, rfl, rfl, ?_, ht⟩
  intro i hi
  match i with
  | 0 => simp at hi
  | 1 => simp at hi
  | 2 => simp at hi
  | 3 => rfl
  | 4 => simp at hi
  | n + 5 => simp [List.get?] at hi

/-- Witness for the amended C6 at the concrete oracle `o6`. -/
theorem C6_passive_write_before_connect_witness :
    [Ev.w .PASV, .rd, .w (.RETR "file.txt"),
      .conn ⟨127, 0, 0, 1, 5136⟩, .rd].get? 2 =
        some (Ev.w (.RETR "file.txt")) ∧
    [Ev.w .PASV, .rd, .w (.RETR "file.txt"),
      .conn ⟨127, 0, 0, 1, 5136⟩, .rd].get? 3 =
        some (Ev.conn ⟨127, 0, 0, 1, 5136⟩) := by
  have h := C6_passive_write_before_connect (.RETR "file.txt") o6
    ⟨127, 0, 0, 1, 5136⟩
    [Ev.w .PASV, .rd, .w (.RETR "file.txt"),
      .conn ⟨127, 0, 0, 1, 5136⟩, .rd] (by decide)
  exact ⟨h.2.1, h.2.2.1⟩

/-! ## C8 -/

/-- Is this event a listener bind? -/
def isBindEv : Ev → Bool
  | .bindL _ => true
  | _ => false

/-- The address configured for active mode in the C8 scenario. -/
def a8 : SocketAddrV4 := ⟨127, 0, 0, 1, 5137⟩

/-- Oracle whose bind fails exactly at `a8` and would succeed at any
other address (in particular at port 5138 = 5137 + 1). -/
def o8 : Orc :=
  { wok := fun _ => true,
    line := fun _ => some "200 Ok\n".data,
    bindOk := fun a => a != a8,
    connOk := fun _ => true,
    acceptOk := true, createOk := true, copyOk := true }

/-- Counterexample for C8: when binding the configured address fails,
`init_data_transfer_active` gives up immediately with `IoError` after a
single bind attempt — it does not probe any subsequent port, although
binding port 5138 would have succeeded. -/
theorem C8_active_counterexample :
    init_data_transfer_active (.RETR "file.txt") a8 o8 =
      .done (.error .ioError) [.bindL a8] ∧
    o8.bindOk ⟨127, 0, 0, 1, 5138⟩ = true ∧
    ((init_data_transfer_active (.RETR "file.txt") a8 o8).trace.countP
      fun e => isBindEv e) = 1 := by
  refine ⟨by decide, by decide, by decide⟩

/-- C8 (amended): in active mode the establisher makes exactly one bind
attempt, at the address stored in `FtpMode::Active` (the user-supplied
`--active` address, not an address derived from the control channel); a
failed bind is returned as `IoError` with no probing of further ports,
and only after a successful bind is the PORT announcement written. -/
theorem C8_active_single_bind (command : FtpCommand) (addr : SocketAddrV4)
    (o : Orc) :
    (o.bindOk addr = false →
      init_data_transfer_active command addr o =
        .done (.error .ioError) [.bindL addr]) ∧
    (o.bindOk addr = true →
      ∃ r rest, init_data_transfer_active command addr o =
        .done r ([.bindL addr, .w (.PORT addr)] ++ rest)) := by
  constructor
  · intro hb
    simp [init_data_transfer_active, hb]
  · intro hb
    unfold init_data_transfer_active
    rw [if_pos hb]
    repeat' split
    all_goals exact ⟨_, _, rfl⟩

/-- Witness for the amended C8 at the concrete oracle `o8`. -/
theorem C8_active_single_bind_witness :
    init_data_transfer_active (.RETR "file.txt") a8 o8 =
      .done (.error .ioError) [.bindL a8] :=
  (C8_active_single_bind (.RETR "file.txt") a8 o8).1 (by decide)
